import Mathlib

/-!
# Verification of the zero-touch-music orchestration core

Shallow embedding, in Lean 4, of the pieces of the repository that the
specification's testable properties talk about:

* `src/main.py` — upload-type rotation (`get_next_upload_type`), the candidate
  walking loops (`create_regular_upload`, `create_mashup_upload`,
  `try_upload_with_retry`) and the run-level driver (`run_pipeline`);
* `src/fetch_trending.py` — language rotation (`_get_next_language`), the
  candidate selector (`get_trending_songs`) and the durable dedup/history
  store (`mark_uploaded`);
* `src/upload_youtube.py` — the chunked-upload retry loop (`_resumable_upload`);
* `src/process_audio.py` — the download variant loop (`_try_download`).

External collaborators (the YouTube API, `yt-dlp`, ffmpeg, the DSP chain)
are modelled as script inputs: a cycle is evaluated against an explicit
record of what each external call would return.  File contents are modelled
as `Option String`/`Option` values (`none` = file missing or unreadable).

Two models of Python's digit handling coexist.  `pyIsDigit`/`digitsVal` is
the ASCII restriction, adequate wherever only program-written contents are
concerned (the program only ever writes ASCII digit strings).
`pyIsDigitFull`/`pyInt` refines it over a fragment of Unicode (all of ASCII,
the Arabic-Indic decimal digits, and the superscript digits) to capture the
real difference between `str.isdigit` — true for any Numeric_Type =
Digit/Decimal character — and `int()`, which accepts only decimal-class
digits: on `"²"` the source's `get_next_upload_type` raises `ValueError`.

Two integration faults of the source shape the cycle model: the callers in
main.py unpack `get_trending_songs`'s bare list into two names (ValueError
before any candidate is evaluated), and both `mark_uploaded` call sites
mismatch `fetch_trending.mark_uploaded`'s signature (TypeError, swallowed by
the candidate loops' `except`).  The candidate loops are modelled as written
(their blocked/transform-failure/exception steps are real code), but no
invocation can reach them, commit to the dedup store, or exit 0.
-/

namespace ZeroTouch

/-! ## ASCII-level models of the Python string primitives used by the code -/

/-- ASCII whitespace, as produced/consumed by Python `str.strip()`
(space, tab, newline, carriage return). -/
def isPySpace (c : Char) : Bool :=
  c = ' ' || c = '\t' || c = '\n' || c = '\r'

/-- Python `str.strip()` on the character list of a string. -/
def pyStrip (l : List Char) : List Char :=
  ((l.dropWhile isPySpace).reverse.dropWhile isPySpace).reverse

/-- ASCII digit test. -/
def isAsciiDigit (c : Char) : Bool :=
  48 ≤ c.toNat && c.toNat ≤ 57

/-- Python `str.isdigit()`, restricted to ASCII: non-empty and all ASCII
digits.  Exact on program-written contents (always ASCII digit strings);
`pyIsDigitFull` below is the full model, whose digit-class-but-non-decimal
characters make the source raise (see C10). -/
def pyIsDigit (l : List Char) : Bool :=
  !l.isEmpty && l.all isAsciiDigit

/-- Python `int(...)` on a digit string. -/
def digitsVal (l : List Char) : Nat :=
  l.foldl (fun a c => 10 * a + (c.toNat - 48)) 0

/-! ## `main.py`: the upload-type rotation cursor

```python
def get_next_upload_type() -> str:
    if UPLOAD_TYPE_FILE.exists():
        content = UPLOAD_TYPE_FILE.read_text().strip()
        count = int(content) if content.isdigit() else 0
    else:
        count = 0
    upload_type = "mashup" if count == 4 else "regular"
    next_count = (count + 1) % 5
    UPLOAD_TYPE_FILE.write_text(str(next_count))
    return upload_type
```
The persisted file is modelled as `Option String` (`none` = missing). -/

/-- The counter value `get_next_upload_type` reads out of the persisted
`upload_type.txt` contents: `int(content)` when `content.strip().isdigit()`,
`0` otherwise (missing file included).  ASCII model, exact on every content
the program itself writes; `uploadTypeCountPy` below additionally models the
`ValueError` that non-ASCII digit-class contents cause. -/
def uploadTypeCount (file : Option String) : Nat :=
  match file with
  | none => 0
  | some content =>
    let t := pyStrip content.data
    if pyIsDigit t then digitsVal t else 0

/-- Model of `get_next_upload_type`: returns the upload type for this cycle and the
new contents of `upload_type.txt` (`str((count + 1) % 5)`). -/
def get_next_upload_type (file : Option String) : String × Option String :=
  let count := uploadTypeCount file
  let uploadType := if count = 4 then "mashup" else "regular"
  (uploadType, some (Nat.repr ((count + 1) % 5)))

/-! ## Full-fidelity model of Python's digit handling

Python's `str.isdigit()` is true when every character has Unicode
`Numeric_Type` Digit *or* Decimal, while `int()` only accepts Decimal
characters.  `get_next_upload_type` guards `int(content)` with
`content.isdigit()`, so a digit-class, non-decimal character (such as `'²'`,
U+00B2 SUPERSCRIPT TWO) passes the guard and makes `int()` raise
`ValueError`; a non-ASCII decimal digit (such as `'٤'`, U+0664 ARABIC-INDIC
DIGIT FOUR) parses to its value.  The model covers a fragment of Unicode:
all ASCII, the Arabic-Indic decimal digits U+0660–U+0669, and the
superscript digits `¹²³`; every character outside the fragment is treated
as non-digit, which only makes the modelled `isdigit` guard *smaller*, so
the raise the counterexample exhibits is a raise of the source. -/

def LANGUAGE_ROTATION : List String := ["english", "hindi", "punjabi", "haryanvi"]

/-- The `last_lang` value `_get_next_language` reads from the persisted file. -/
def readLastLang (file : Option String) : String :=
  file.getD "english"

/-- The rotation step: `LANGUAGE_ROTATION[(index(last) + 1) % len]`, with the
`ValueError` fallback to `"english"` when `last` is not in the rotation. -/
def nextLanguage (last : String) : String :=
  match LANGUAGE_ROTATION.findIdx? (· == last) with
  | some idx => (LANGUAGE_ROTATION.getD ((idx + 1) % LANGUAGE_ROTATION.length) "english")
  | none => "english"

/-- Model of `_get_next_language`: returns the language for this cycle and the new
persisted contents of `last_language.json`. -/
def get_next_language (file : Option String) : String × Option String :=
  let nextLang := nextLanguage (readLastLang file)
  (nextLang, some nextLang)

/-! ## `fetch_trending.py`: the candidate selector `get_trending_songs`

The external catalog responses are inputs: `chart` is the
`videos().list(chart="mostPopular", ...)` response (`none` = the query raised),
with each item carrying its id and its parsed `contentDetails.duration` in
seconds (the result of `_parse_duration`); `search` is the `search().list(...)`
response (`none` = the query raised), carrying the video ids.  Titles and
artists play no role in any verified property and are omitted from the model.
-/

/-- A candidate as accumulated by `get_trending_songs`:
`{"video_id": ..., "duration": ...}` (title/artist omitted). -/
structure Cand where
  video_id : String
  duration : Nat
deriving DecidableEq, Repr

/-- An item of the primary (`mostPopular` chart) response: its id and its
duration as parsed by `_parse_duration`. -/
structure ChartItem where
  id : String
  duration : Nat
deriving DecidableEq, Repr

def BLOCKLIST : List String := ["c5aYTMnACfk", "1FVF-9KQiPo"]

/-- The primary loop of `get_trending_songs`: skip ids in `skip`, skip items
with duration outside `60 ≤ secs ≤ 480`, append, and break as soon as
`len(candidates) >= max_candidates` (checked after the append). -/
def chartPhase (skip : List String) (maxC : Nat) :
    List ChartItem → List Cand → List Cand
  | [], acc => acc
  | item :: rest, acc =>
    if skip.contains item.id then chartPhase skip maxC rest acc
    else if !(60 ≤ item.duration && item.duration ≤ 480) then
      chartPhase skip maxC rest acc
    else
      let acc' := acc ++ [⟨item.id, item.duration⟩]
      if maxC ≤ acc'.length then acc' else chartPhase skip maxC rest acc'

/-- The fallback loop of `get_trending_songs`: skip ids in `skip`, record the
item with the hard-coded `"duration": 180`, break once
`len(candidates) >= max_candidates` (checked after the append). -/
def searchPhase (skip : List String) (maxC : Nat) :
    List String → List Cand → List Cand
  | [], acc => acc
  | id :: rest, acc =>
    if skip.contains id then searchPhase skip maxC rest acc
    else
      let acc' := acc ++ [⟨id, 180⟩]
      if maxC ≤ acc'.length then acc' else searchPhase skip maxC rest acc'

/-- The candidate-list computation of `get_trending_songs`: primary chart
phase (skipped entirely when the chart query raised), then — only when fewer
than `max_candidates` were collected — the fallback search phase (skipped when
the search query raised).  `uploaded` is the parsed `uploaded.json` dedup set;
`skip = uploaded | BLOCKLIST`. -/
def getTrendingCands (uploaded : List String) (chart : Option (List ChartItem))
    (search : Option (List String)) (maxC : Nat) : List Cand :=
  let skip := uploaded ++ BLOCKLIST
  let c1 := match chart with
    | some items => chartPhase skip maxC items []
    | none => []
  if c1.length < maxC then
    match search with
    | some ids => searchPhase skip maxC ids c1
    | none => c1
  else c1

/-! ## `upload_youtube.py`: the chunked-upload retry loop `_resumable_upload`

```python
def _resumable_upload(request) -> str:
    response = None; error = None; retry = 0
    max_retry = 10; retry_codes = [500, 502, 503, 504]
    while response is None:
        try:
            status, response = request.next_chunk()
            ...
        except HttpError as e:
            if e.resp.status in retry_codes:
                error = f"HTTP {e.resp.status}: {e.content}"
            else:
                raise
        except Exception as e:
            error = str(e)
        if error:
            retry += 1
            if retry > max_retry:
                raise RuntimeError(...)
            wait = 2 ** retry
            time.sleep(wait)
            error = None
    return response["id"]
```
Each loop iteration consumes the outcome of one `request.next_chunk()` call;
the sequence of those outcomes is the model's input. -/

/-- Outcome of one `request.next_chunk()` call. -/
inductive ChunkEv where
  /-- A chunk was accepted but the upload is not finished (`status` progress). -/
  | progress
  /-- The final chunk was accepted; the response carries the new video id. -/
  | done (id : String)
  /-- The call raised `HttpError` with this HTTP status and content. -/
  | httpErr (status : Nat) (content : String)
  /-- The call raised some non-`HttpError` exception. -/
  | exc (msg : String)
deriving DecidableEq, Repr

/-- Result of `_resumable_upload`, together with the list of backoff waits
(in seconds) it slept through. -/
inductive UpRes where
  /-- Returned `response["id"]`. -/
  | ok (id : String) (waits : List Nat)
  /-- Re-raised an `HttpError` whose status is not in `retry_codes`. -/
  | failHttp (status : Nat) (waits : List Nat)
  /-- Raised `RuntimeError` after the retry count exceeded `max_retry`. -/
  | failRetries (waits : List Nat)
  /-- The supplied outcome script ran out while the loop was still running. -/
  | hung (waits : List Nat)
deriving DecidableEq, Repr

def retry_codes : List Nat := [500, 502, 503, 504]

def max_retry : Nat := 10

/-- The `while response is None` loop of `_resumable_upload`: `retry` is the
cumulative transient-failure counter (never reset), `waits` the trace of
backoff sleeps performed so far. -/
def resumableGo : List ChunkEv → Nat → List Nat → UpRes
  | [], _, waits => .hung waits
  | ev :: rest, retry, waits =>
    match ev with
    | .progress => resumableGo rest retry waits
    | .done id => .ok id waits
    | .httpErr status _content =>
      if retry_codes.contains status then
        let retry' := retry + 1
        if max_retry < retry' then .failRetries waits
        else resumableGo rest retry' (waits ++ [2 ^ retry'])
      else .failHttp status waits
    | .exc _msg =>
      let retry' := retry + 1
      if max_retry < retry' then .failRetries waits
      else resumableGo rest retry' (waits ++ [2 ^ retry'])

/-- Model of `_resumable_upload` on a script of chunk-call outcomes. -/
def resumable_upload (evs : List ChunkEv) : UpRes :=
  resumableGo evs 0 []

/-! ## `process_audio.py`: the download variant loop `_try_download`

```python
def _try_download(url, out_video, cookies_arg) -> bool:
    clients = ["ios", "web", "android", "tv_embedded", "mweb"]
    for client in clients:
        cmd = ["yt-dlp", url, ..., "--extractor-args",
               f"youtube:player_client={client}", ...] + cookies_arg
        result = subprocess.run(cmd, ...)
        if result.returncode == 0 and out_video.exists() \
           and out_video.stat().st_size > 10000:
            return True
        if out_video.exists():
            out_video.unlink()
    return False
```
The `yt-dlp` invocation per client is an input: a map from client hint to the
observed `(returncode, file exists, file size)` triple. -/

/-- What one `yt-dlp` invocation left behind: the process return code, whether
the output file exists, and its size in bytes. -/
structure DlResult where
  returncode : Int
  fileExists : Bool
  size : Nat
deriving DecidableEq, Repr

/-- The fixed, ordered list of player-client access-strategy variants. -/
def clients : List String := ["ios", "web", "android", "tv_embedded", "mweb"]

/-- The per-client success test of `_try_download`:
`returncode == 0 and out_video.exists() and st_size > 10000`. -/
def dlOk (r : DlResult) : Bool :=
  r.returncode = 0 && r.fileExists && 10000 < r.size

/-- The client loop of `_try_download`; returns the first client whose
invocation passed the success test, `none` when every variant failed. -/
def tryDownloadGo (f : String → DlResult) : List String → Option String
  | [] => none
  | c :: rest => if dlOk (f c) then some c else tryDownloadGo f rest

/-- Model of `_try_download`: walk `clients` in order. -/
def try_download (f : String → DlResult) : Option String :=
  tryDownloadGo f clients

/-- The download gate of `process_audio`: when `_try_download` returns
`False`, `process_audio` raises `DownloadError(f"All clients failed ...")`;
the rest of `process_audio` (ffmpeg extraction, DSP chain) is delegated to
external collaborators and is kept abstract here via the candidate scripts
below. -/
def processAudioDownload (f : String → DlResult) : Except String String :=
  match try_download f with
  | some client => .ok client
  | none => .error "DownloadError: All clients failed"

/-! ## The durable state store and `mark_uploaded`

`mark_uploaded` (fetch_trending.py) adds the id to the `uploaded.json` set
and appends one entry to `upload_history.txt`.  The set is modelled as a
`List String` with set-insertion; a history entry is modelled by the video id
it records (its timestamp/title/artist/url text plays no role in any claim).

`deleted` is the trace of `delete_video(youtube, video_id)` calls the cycle
issued against the platform (check_copyright.py is not part of the sources;
only the call site in main.py is modelled). -/

structure StoreState where
  /-- Parsed contents of `uploaded.json` (the DedupSet), as a set of ids. -/
  uploaded : List String
  /-- `upload_history.txt`: the append-only audit log, one id per entry. -/
  history : List String
  /-- Platform-side trace: video ids of issued compensating deletes. -/
  deleted : List String
  /-- Contents of `output/upload_type.txt` (`none` = missing). -/
  counterFile : Option String
  /-- Stored `"language"` value of `output/last_language.json`. -/
  langFile : Option String
deriving DecidableEq, Repr

/-- Model of the body of
`mark_uploaded(video_id, title="", artist="", youtube_url="")`:
`uploaded.add(video_id)` then one appended history entry.  The function
itself is sound, but neither main.py call site can invoke it: both mismatch
this signature (`language=language` keyword at main.py:164; five positional
arguments at main.py:242-243) and raise `TypeError` at argument binding, so
this body never runs during a pipeline cycle. -/
def mark_uploaded (videoId : String) (st : StoreState) : StoreState :=
  { st with
    uploaded := if st.uploaded.contains videoId then st.uploaded
                else videoId :: st.uploaded
    history := st.history ++ [videoId] }

/-! ## `main.py`: `try_upload_with_retry`

```python
def try_upload_with_retry(song, processed_audio, language, max_retries=3):
    youtube = get_youtube_service()
    for attempt in range(max_retries):
        try:
            metadata = generate_seo_metadata(...)
            video_path = create_video(...)
            thumbnail_path = generate_thumbnail(...)
            video_url = upload_to_youtube(...)
            video_id = video_url.split("=")[-1]
            status = check_video_status(youtube, video_id)
            if status["blocked"]:
                delete_video(youtube, video_id)
                return False, None
            if status["restricted"]:
                ...  # kept
            return True, video_url
        except Exception as e:
            if attempt < max_retries - 1:
                cleanup_temp_files(...); # retry
            else:
                raise
    return False, None
```
One attempt is scripted as an `AttemptEv`: either the attempt body raised
somewhere before returning (SEO, video render, thumbnail, upload — including
a `QuotaExceededError`), or the upload went through and the post-publish
policy check (`check_video_status`) returned a classification.

`QuotaExceededError` and `get_youtube_service` are imported by main.py from
upload_youtube but are absent from the sources under verification; modelled
from the spec: quota exhaustion is detected from a failure's structured
payload and raised as a distinct exception class `QuotaExceededError`, a
subclass of `Exception` (as every Python exception main.py can catch with
`except Exception` is).  The `quota` flag below marks an attempt's raised
exception as being that class. -/

/-- Script for one iteration of the `for attempt in range(max_retries)` loop. -/
inductive AttemptEv where
  /-- The attempt body raised before `return`; `quota = true` marks a
  `QuotaExceededError`. -/
  | raiseErr (quota : Bool)
  /-- `upload_to_youtube` returned (new video id `vid`) and
  `check_video_status` classified the video. -/
  | published (vid : String) (blocked : Bool) (restricted : Bool)
deriving DecidableEq, Repr

/-- Result of `try_upload_with_retry`. -/
inductive TryRes where
  /-- `return True, video_url` (the non-blocked path). -/
  | succ (vid : String) (restricted : Bool)
  /-- Blocked: `delete_video(youtube, vid)` was issued, then
  `return False, None`. -/
  | blockedRes (vid : String)
  /-- The last attempt raised and the exception propagated
  (`quota = true`: it was a `QuotaExceededError`). -/
  | exhausted (quota : Bool)
deriving DecidableEq, Repr

/-- The attempt loop of `try_upload_with_retry`: `remaining` is the number of
loop iterations still available (`max_retries - attempt`); an exception on the
last iteration is re-raised (`except Exception` otherwise retries —
`QuotaExceededError` included, since it is an `Exception`). -/
def tryUploadGo (att : Nat → AttemptEv) : Nat → Nat → TryRes
  | _, 0 => .exhausted false
  | attempt, remaining + 1 =>
    match att attempt with
    | .published vid blocked restricted =>
      if blocked then .blockedRes vid else .succ vid restricted
    | .raiseErr quota =>
      if remaining = 0 then .exhausted quota
      else tryUploadGo att (attempt + 1) remaining

/-- Model of `try_upload_with_retry` with its default `max_retries=3`. -/
def try_upload_with_retry (att : Nat → AttemptEv) : TryRes :=
  tryUploadGo att 0 3

/-! ## `main.py`: the candidate loops and `run_pipeline`

The per-candidate external behaviour is scripted: `download` is the per-client
`yt-dlp` outcome map consumed by `_try_download`, `postOk` covers the rest of
`process_audio` (ffmpeg extraction and DSP chain — `false` means it raised),
and `attempts` scripts `try_upload_with_retry`. -/

structure CandScript where
  download : String → DlResult
  postOk : Bool
  attempts : Nat → AttemptEv

/-- Whether `process_audio` succeeded for this candidate: `_try_download` found a
working client and the rest of the transform did not raise. -/
def transformOk (cs : CandScript) : Bool :=
  (try_download cs.download).isSome && cs.postOk

/-- Script for one pair iteration of `create_mashup_upload`: the two
`process_audio` calls and `create_mashup` (abstracted into `t1Ok`/`t2Ok`,
with `create_mashup` failure folded into `t2Ok`), then the upload attempts. -/
structure PairScript where
  t1Ok : Bool
  t2Ok : Bool
  attempts : Nat → AttemptEv

/-- Terminal result of one invocation, as `run_pipeline` sees it. -/
inductive CycleRes where
  /-- `create_*_upload` returned `True`; `vid` is the published video id.
  Unreachable in the source: the commit raises before `return True`. -/
  | success (vid : String)
  /-- Returned `False` up front: empty candidate list (`"No songs found"`) /
  fewer than two candidates for a mashup.  Unreachable in the source: the
  bare-list unpack raises first. -/
  | noCandidates
  /-- Returned `False` after the loop: every candidate (pair) failed. -/
  | allFailed
  /-- An exception other than `QuotaExceededError` escaped `create_*_upload`
  and was caught by `run_pipeline`'s `except Exception` arm. -/
  | fatal (msg : String)
deriving DecidableEq, Repr

/-- Output of a cycle: terminal result, resulting store state, and the number
of candidates (pairs) the loop entered. -/
structure RunOut where
  res : CycleRes
  st : StoreState
  attempted : Nat
deriving Repr

/-- The candidate loop of `create_regular_upload` (candidate `i` is driven by
script `cs i`):

```python
for i, candidate in enumerate(candidates):
    log.info(f"... '{candidate['title']}' ...")        # outside the try
    try:
        processed_audio = process_audio(...)          # may raise DownloadError
        success, video_url = try_upload_with_retry(candidate, ...)
        if success:
            mark_uploaded(video_id=..., title=..., artist=...,
                          youtube_url=video_url, language=language)
            ...
            return True
        else:
            continue                                   # blocked: next song
    except (DownloadError, Exception) as e:
        continue                                       # any exception: next song
return False
```
Two properties of this loop matter:

* the `except (DownloadError, Exception)` clause catches every `Exception`,
  so an exception propagating out of `try_upload_with_retry` — a
  `QuotaExceededError` included — only moves the loop to the next candidate;
* the commit call is broken: `fetch_trending.mark_uploaded` is declared
  `mark_uploaded(video_id, title="", artist="", youtube_url="")` — it has no
  `language` parameter — so the keyword call raises `TypeError` at argument
  binding (before any of `mark_uploaded`'s body runs), the same `except`
  clause catches it, and the loop continues: the success branch commits
  nothing and `return True` is unreachable. -/
def regularGo (cs : Nat → CandScript) :
    List Cand → Nat → StoreState → Nat → RunOut
  | [], _, st, attempted => ⟨.allFailed, st, attempted⟩
  | _cand :: rest, i, st, attempted =>
    let sc := cs i
    if transformOk sc then
      match try_upload_with_retry sc.attempts with
      | .succ _vid _restricted =>
        regularGo cs rest (i + 1) st (attempted + 1)
      | .blockedRes vid =>
        regularGo cs rest (i + 1)
          { st with deleted := st.deleted ++ [vid] } (attempted + 1)
      | .exhausted _quota =>
        regularGo cs rest (i + 1) st (attempted + 1)
    else regularGo cs rest (i + 1) st (attempted + 1)

/-- Model of the `create_regular_upload` entry point.  Its first statement is

```python
candidates, language = get_trending_songs(max_candidates=15)
```

but `get_trending_songs` (fetch_trending.py, `-> list`) returns the bare
candidate list, so this assignment *unpacks the list itself*: it raises
`ValueError` unless the list has exactly two elements, and in that freak case
`candidates` is bound to the first song dict, whose keys the `for` loop then
iterates, so the f-string `candidate['title']` (a string index, *outside* the
`try`) raises `TypeError`.  Either way `create_regular_upload` raises before
evaluating any real candidate; the candidate loop `regularGo` above
(main.py:144-185 as written) is unreachable from this entry point. -/
def create_regular_upload (cands : List Cand) (_cs : Nat → CandScript)
    (_st : StoreState) : Except String RunOut :=
  if cands.length = 2 then .error "TypeError: string indices must be integers"
  else .error "ValueError: unpack"

/-- The pair loop of `create_mashup_upload` over the adjacent pairs
`(candidates[i], candidates[i+1])`.  Its success branch runs

```python
mark_uploaded(song1["video_id"], song1["title"], song1["artist"],
              video_url, language)
```

— five positional arguments against `mark_uploaded`'s four parameters — so
the call raises `TypeError` at argument binding, the loop's
`except (DownloadError, Exception)` catches it, and the loop moves to the
next pair: no commit and no `return True` is possible. -/
def mashupGo (ps : Nat → PairScript) :
    List (Cand × Cand) → Nat → StoreState → Nat → RunOut
  | [], _, st, attempted => ⟨.allFailed, st, attempted⟩
  | (_song1, _song2) :: rest, i, st, attempted =>
    let sc := ps i
    if sc.t1Ok && sc.t2Ok then
      match try_upload_with_retry sc.attempts with
      | .succ _vid _restricted =>
        mashupGo ps rest (i + 1) st (attempted + 1)
      | .blockedRes vid =>
        mashupGo ps rest (i + 1)
          { st with deleted := st.deleted ++ [vid] } (attempted + 1)
      | .exhausted _quota =>
        mashupGo ps rest (i + 1) st (attempted + 1)
    else mashupGo ps rest (i + 1) st (attempted + 1)

/-- Model of the `create_mashup_upload` entry point.  Like the regular one it
starts with the bare-list unpack `candidates, language =
get_trending_songs(max_candidates=20)`, raising `ValueError` unless the list
has exactly two elements; in that case `candidates` is the first song dict
(four keys, so `len(candidates) < 2` is false) and `song1 = candidates[i]`
at main.py:201 (outside the `try`) raises `KeyError: 0`.  The pair loop
`mashupGo` is unreachable from this entry point. -/
def create_mashup_upload (cands : List Cand) (_ps : Nat → PairScript)
    (_st : StoreState) : Except String RunOut :=
  if cands.length = 2 then .error "KeyError: 0"
  else .error "ValueError: unpack"

/-- One invocation's worth of external-world behaviour. -/
structure CycleScript where
  /-- The chart query response (`none` = it raised). -/
  chart : Option (List ChartItem)
  /-- The fallback search response (`none` = it raised). -/
  search : Option (List String)
  /-- Per-candidate scripts for a regular cycle. -/
  cand : Nat → CandScript
  /-- Per-pair scripts for a mashup cycle. -/
  pair : Nat → PairScript

/-- Output of `run_pipeline`: cycle result, final store state, candidates
attempted, and the process exit code. -/
structure PipeOut where
  res : CycleRes
  st : StoreState
  attempted : Nat
  exitCode : Nat
deriving Repr

/-- Model of `run_pipeline`:

```python
upload_type = get_next_upload_type()          # advances + persists counter
try:
    if upload_type == "mashup":
        success = create_mashup_upload()      # get_trending_songs(20) inside
    else:
        success = create_regular_upload()     # get_trending_songs(15) inside
    if success: ...                           # falls off: process exits 0
    else: sys.exit(1)
except QuotaExceededError:
    sys.exit(0)
except Exception:
    sys.exit(1)
```
`get_trending_songs` runs to completion inside `create_*_upload` before the
bare-list unpack fails, so the language cursor is advanced (and persisted)
exactly once per invocation; the counter was advanced before the `try`.
Both `create_*_upload` models always return `.error` (the unpack
`ValueError`, or `TypeError`/`KeyError` in the two-element case), and none
of those exceptions is a `QuotaExceededError`, so every invocation takes the
`except Exception: sys.exit(1)` arm; the `.ok` arm and the quota handler are
dead code. -/
def run_pipeline (st : StoreState) (scr : CycleScript) : PipeOut :=
  let uploadType := (get_next_upload_type st.counterFile).1
  let st1 := { st with counterFile := (get_next_upload_type st.counterFile).2 }
  let maxC := if uploadType = "mashup" then 20 else 15
  let st2 := { st1 with langFile := (get_next_language st1.langFile).2 }
  let cands := getTrendingCands st2.uploaded scr.chart scr.search maxC
  match (if uploadType = "mashup" then create_mashup_upload cands scr.pair st2
    else create_regular_upload cands scr.cand st2) with
  | .ok out =>
    { res := out.res, st := out.st, attempted := out.attempted,
      exitCode := match out.res with | .success _ => 0 | _ => 1 }
  | .error e =>
    { res := .fatal e, st := st2, attempted := 0, exitCode := 1 }

/-- The persisted store state before cycle `i` of a run of consecutive
invocations driven by the per-cycle scripts `scr`. -/
def pipelineIter (st0 : StoreState) (scr : Nat → CycleScript) : Nat → StoreState
  | 0 => st0
  | i + 1 => (run_pipeline (pipelineIter st0 scr i) (scr i)).st

/-! ## Observation functions for the rotation-fairness property -/

/-- How many of the first `N` consecutive invocations read counter value `v`
out of `upload_type.txt` (the 5-slot regular/mashup pattern: slots 0–3 are
regular, slot 4 is the mashup slot). -/
def slotVisits (st0 : StoreState) (scr : Nat → CycleScript) (N v : Nat) : Nat :=
  (List.range N).countP fun i =>
    uploadTypeCount (pipelineIter st0 scr i).counterFile == v

/-- The `j`-th language bucket of the rotation. -/
def languageAt (j : Fin 4) : String :=
  LANGUAGE_ROTATION.getD j.val "english"

/-- The content language a cycle starting from store state `st` uses: the
value `_get_next_language` returns during that cycle. -/
def langUsed (st : StoreState) : String :=
  nextLanguage (readLastLang st.langFile)

/-- How many of the first `N` consecutive invocations use language bucket
`j`. -/
def langVisits (st0 : StoreState) (scr : Nat → CycleScript) (N : Nat)
    (j : Fin 4) : Nat :=
  (List.range N).countP fun i => langUsed (pipelineIter st0 scr i) == languageAt j

/-! ## Concrete fixtures used to evaluate the model at specific inputs -/

/-- A fresh store: no dedup entries, no history, all state files missing. -/
def emptyStore : StoreState := ⟨[], [], [], none, none⟩

/-- A `yt-dlp` world in which every client succeeds with a 20000-byte file. -/
def dlAllOk : String → DlResult := fun _ => ⟨0, true, 20000⟩

/-- A `yt-dlp` world in which every client fails. -/
def dlAllFail : String → DlResult := fun _ => ⟨1, false, 0⟩

/-- An attempt script that always raises a non-quota exception. -/
def noAttempt : Nat → AttemptEv := fun _ => .raiseErr false

/-- A candidate whose every upload attempt raises `QuotaExceededError`. -/
def quotaScript : CandScript := ⟨dlAllOk, true, fun _ => .raiseErr true⟩

/-- A candidate that publishes `"v2"` cleanly on the first attempt. -/
def okScript : CandScript := ⟨dlAllOk, true, fun _ => .published "v2" false false⟩

/-- A candidate whose publish is reported blocked on every attempt. -/
def blockedScript : CandScript := ⟨dlAllOk, true, fun _ => .published "vb" true false⟩

/-- A chart response carrying two fresh, in-window songs. -/
def twoSongChart : List ChartItem := [⟨"s1", 180⟩, ⟨"s2", 200⟩]

/-- A cycle whose catalog queries both raise: no candidates at all. -/
def scrNoCands : CycleScript :=
  ⟨none, none, fun _ => ⟨dlAllFail, false, noAttempt⟩,
   fun _ => ⟨false, false, noAttempt⟩⟩

/-- Candidate 1 exhausts its attempts with `QuotaExceededError`; candidate 2
would publish cleanly. -/
def scrQuotaFirst : CycleScript :=
  ⟨some twoSongChart, none, fun i => if i = 0 then quotaScript else okScript,
   fun _ => ⟨false, false, noAttempt⟩⟩

/-- Every candidate exhausts its attempts with `QuotaExceededError`. -/
def scrQuotaAll : CycleScript :=
  ⟨some twoSongChart, none, fun _ => quotaScript,
   fun _ => ⟨false, false, noAttempt⟩⟩

/-- A regular cycle whose first candidate publishes cleanly. -/
def scrRegularOk : CycleScript :=
  ⟨some twoSongChart, none, fun _ => okScript,
   fun _ => ⟨false, false, noAttempt⟩⟩

/-- A mashup cycle whose first pair publishes cleanly. -/
def scrMashupOk : CycleScript :=
  ⟨some twoSongChart, none, fun _ => ⟨dlAllFail, false, noAttempt⟩,
   fun _ => ⟨true, true, fun _ => .published "v2" false false⟩⟩

/-- A fresh store whose upload-type counter sits on the mashup slot. -/
def mashupStore : StoreState := ⟨[], [], [], some "4", none⟩

/-! ## Helper lemmas -/

lemma uploadTypeCount_repr {m : Nat} (h : m < 5) :
    uploadTypeCount (some (Nat.repr m)) = m := by
  interval_cases m <;> decide

lemma tryDownloadGo_eq_none (f : String → DlResult) :
    ∀ l : List String, tryDownloadGo f l = none ↔ ∀ c ∈ l, dlOk (f c) = false := by
  intro l
  induction l with
  | nil => simp [tryDownloadGo]
  | cons c rest ih =>
    by_cases h : dlOk (f c)
    · simp [tryDownloadGo, h]
    · simp only [Bool.not_eq_true] at h
      simp [tryDownloadGo, h, ih]

lemma tryDownloadGo_eq_some (f : String → DlResult) :
    ∀ (l : List String) (cl : String), tryDownloadGo f l = some cl →
      dlOk (f cl) = true ∧
      ∃ pre suf, l = pre ++ cl :: suf ∧ ∀ c' ∈ pre, dlOk (f c') = false := by
  intro l
  induction l with
  | nil => intro cl h; simp [tryDownloadGo] at h
  | cons c rest ih =>
    intro cl h
    by_cases hc : dlOk (f c)
    · simp [tryDownloadGo, hc] at h
      subst h
      exact ⟨hc, [], rest, rfl, by simp⟩
    · simp only [Bool.not_eq_true] at hc
      simp only [tryDownloadGo, hc, Bool.false_eq_true, if_false] at h
      obtain ⟨h1, pre, suf, hsplit, hpre⟩ := ih cl h
      refine ⟨h1, c :: pre, suf, by simp [hsplit], ?_⟩
      intro c' hc'
      rcases List.mem_cons.mp hc' with rfl | hmem
      · exact hc
      · exact hpre c' hmem

end ZeroTouch

namespace ZeroTouch

/-! ## Claim theorems -/

/-- C5: in the chunked upload loop, an `HttpError` whose status is in
`retry_codes = [500, 502, 503, 504]` is retried after a sleep of
`2 ^ attempt` seconds (`attempt` being the incremented cumulative retry
count), an `HttpError` with any other status is re-raised immediately, and
once the retry count exceeds `max_retry = 10` the driver raises a fatal
`RuntimeError` for this candidate. -/
theorem chunk_retry_policy (s : Nat) (c : String) (rest : List ChunkEv)
    (retry : Nat) (waits : List Nat) :
    (retry_codes.contains s = false →
        resumableGo (.httpErr s c :: rest) retry waits = .failHttp s waits) ∧
    (retry_codes.contains s = true → retry + 1 ≤ max_retry →
        resumableGo (.httpErr s c :: rest) retry waits
          = resumableGo rest (retry + 1) (waits ++ [2 ^ (retry + 1)])) ∧
    (retry_codes.contains s = true → max_retry < retry + 1 →
        resumableGo (.httpErr s c :: rest) retry waits = .failRetries waits) := by
  refine ⟨fun h => ?_, fun h h2 => ?_, fun h h2 => ?_⟩
  · have h' : s ∉ retry_codes := by simpa using h
    simp [resumableGo, h']
  · have h' : s ∈ retry_codes := by simpa using h
    simp [resumableGo, h', Nat.not_lt.mpr h2]
  · have h' : s ∈ retry_codes := by simpa using h
    simp [resumableGo, h', h2]

theorem chunk_retry_policy_w :
    resumableGo [.httpErr 403 "quota"] 0 [] = .failHttp 403 [] ∧
    resumableGo [.httpErr 503 "e"] 0 []
      = resumableGo [] (0 + 1) ([] ++ [2 ^ (0 + 1)]) ∧
    resumableGo [.httpErr 500 "e"] 10 [] = .failRetries [] :=
  ⟨(chunk_retry_policy 403 "quota" [] 0 []).1 (by decide),
   (chunk_retry_policy 503 "e" [] 0 []).2.1 (by decide) (by decide),
   (chunk_retry_policy 500 "e" [] 10 []).2.2 (by decide) (by decide)⟩

/-- C9: the download step tries the access-strategy variants (player-client
hints) sequentially in the fixed order `clients`, stopping at the first one
whose artifact passes the success test (return code 0, file present, size
above the 10000-byte threshold); if every variant fails, `process_audio`
raises `DownloadError` (a per-candidate failure), the candidate's transform
is unsuccessful, and the orchestrator's candidate loop moves on to the next
candidate with the store state untouched. -/
theorem download_variant_fallback (f : String → DlResult) :
    (try_download f = none ↔ ∀ cl ∈ clients, dlOk (f cl) = false) ∧
    (∀ cl, try_download f = some cl →
        dlOk (f cl) = true ∧
        ∃ pre suf, clients = pre ++ cl :: suf ∧ ∀ c' ∈ pre, dlOk (f c') = false) ∧
    (try_download f = none →
        processAudioDownload f = .error "DownloadError: All clients failed") ∧
    (∀ cs : CandScript, cs.download = f → try_download f = none →
        transformOk cs = false) ∧
    (∀ (cs : Nat → CandScript) (cand : Cand) (rest : List Cand) (i : Nat)
        (st : StoreState) (a : Nat), transformOk (cs i) = false →
        regularGo cs (cand :: rest) i st a = regularGo cs rest (i + 1) st (a + 1)) := by
  refine ⟨tryDownloadGo_eq_none f clients, tryDownloadGo_eq_some f clients,
    fun h => ?_, fun cs hdl h => ?_, fun cs cand rest i st a h => ?_⟩
  · simp [processAudioDownload, h]
  · simp [transformOk, hdl, h]
  · simp [regularGo, h]

theorem download_variant_fallback_w :
    try_download (fun _ => DlResult.mk 1 false 0) = none ∧
    processAudioDownload (fun _ => DlResult.mk 1 false 0)
      = .error "DownloadError: All clients failed" := by
  refine ⟨by decide, ?_⟩
  exact (download_variant_fallback (fun _ => DlResult.mk 1 false 0)).2.2.1 (by decide)

end ZeroTouch

namespace ZeroTouch

/-! ## Selector lemmas (C6) -/

/-- Candidates produced by the chart phase pass the exclusion tests. -/
lemma chartPhase_mem (skip : List String) (maxC : Nat) :
    ∀ (items : List ChartItem) (acc : List Cand),
      (∀ c ∈ acc, skip.contains c.video_id = false ∧
        60 ≤ c.duration ∧ c.duration ≤ 480) →
      ∀ c ∈ chartPhase skip maxC items acc,
        skip.contains c.video_id = false ∧ 60 ≤ c.duration ∧ c.duration ≤ 480 := by
  intro items
  induction items with
  | nil => intro acc hacc; simpa [chartPhase] using hacc
  | cons item rest ih =>
    intro acc hacc c hc
    by_cases hskip : skip.contains item.id
    · rw [chartPhase, if_pos hskip] at hc
      exact ih acc hacc c hc
    · rw [chartPhase, if_neg hskip] at hc
      by_cases hdur : (60 ≤ item.duration && item.duration ≤ 480)
      · rw [if_neg (by simp [hdur])] at hc
        have hdur' : 60 ≤ item.duration ∧ item.duration ≤ 480 := by
          simpa using hdur
        have hacc' : ∀ c ∈ acc ++ [(⟨item.id, item.duration⟩ : Cand)],
            skip.contains c.video_id = false ∧
              60 ≤ c.duration ∧ c.duration ≤ 480 := by
          intro c' hc'
          rcases List.mem_append.mp hc' with h | h
          · exact hacc c' h
          · rcases List.mem_singleton.mp h with rfl
            exact ⟨by simpa using hskip, hdur'.1, hdur'.2⟩
        by_cases hlen : maxC ≤ (acc ++ [(⟨item.id, item.duration⟩ : Cand)]).length
        · rw [if_pos hlen] at hc
          exact hacc' c hc
        · rw [if_neg hlen] at hc
          exact ih _ hacc' c hc
      · have hdurF : (60 ≤ item.duration && item.duration ≤ 480) = false :=
          Bool.eq_false_iff.mpr hdur
        rw [if_pos (by simp [hdurF])] at hc
        exact ih acc hacc c hc

/-- Candidates produced by the search phase pass the exclusion tests (their
recorded duration is the hard-coded 180). -/
lemma searchPhase_mem (skip : List String) (maxC : Nat) :
    ∀ (ids : List String) (acc : List Cand),
      (∀ c ∈ acc, skip.contains c.video_id = false ∧
        60 ≤ c.duration ∧ c.duration ≤ 480) →
      ∀ c ∈ searchPhase skip maxC ids acc,
        skip.contains c.video_id = false ∧ 60 ≤ c.duration ∧ c.duration ≤ 480 := by
  intro ids
  induction ids with
  | nil => intro acc hacc; simpa [searchPhase] using hacc
  | cons id rest ih =>
    intro acc hacc c hc
    by_cases hskip : skip.contains id
    · rw [searchPhase, if_pos hskip] at hc
      exact ih acc hacc c hc
    · rw [searchPhase, if_neg hskip] at hc
      have hacc' : ∀ c ∈ acc ++ [(⟨id, 180⟩ : Cand)],
          skip.contains c.video_id = false ∧
            60 ≤ c.duration ∧ c.duration ≤ 480 := by
        intro c' hc'
        rcases List.mem_append.mp hc' with h | h
        · exact hacc c' h
        · rcases List.mem_singleton.mp h with rfl
          exact ⟨by simpa using hskip, by norm_num, by norm_num⟩
      by_cases hlen : maxC ≤ (acc ++ [(⟨id, 180⟩ : Cand)]).length
      · rw [if_pos hlen] at hc
        exact hacc' c hc
      · rw [if_neg hlen] at hc
        exact ih _ hacc' c hc

/-- The chart phase never grows the accumulator past `max_candidates` (its
length test runs right after each append). -/
lemma chartPhase_len (skip : List String) (maxC : Nat) :
    ∀ (items : List ChartItem) (acc : List Cand), acc.length < maxC →
      (chartPhase skip maxC items acc).length ≤ maxC := by
  intro items
  induction items with
  | nil => intro acc hacc; simpa [chartPhase] using Nat.le_of_lt hacc
  | cons item rest ih =>
    intro acc hacc
    by_cases hskip : skip.contains item.id
    · rw [chartPhase, if_pos hskip]; exact ih acc hacc
    · rw [chartPhase, if_neg hskip]
      by_cases hdur : (60 ≤ item.duration && item.duration ≤ 480)
      · rw [if_neg (by simp [hdur])]
        by_cases hlen : maxC ≤ (acc ++ [(⟨item.id, item.duration⟩ : Cand)]).length
        · rw [if_pos hlen]
          simpa using hacc
        · rw [if_neg hlen]
          exact ih _ (Nat.lt_of_not_le hlen)
      · have hdurF : (60 ≤ item.duration && item.duration ≤ 480) = false :=
          Bool.eq_false_iff.mpr hdur
        rw [if_pos (by simp [hdurF])]
        exact ih acc hacc

/-- The search phase never grows the accumulator past `max_candidates`. -/
lemma searchPhase_len (skip : List String) (maxC : Nat) :
    ∀ (ids : List String) (acc : List Cand), acc.length < maxC →
      (searchPhase skip maxC ids acc).length ≤ maxC := by
  intro ids
  induction ids with
  | nil => intro acc hacc; simpa [searchPhase] using Nat.le_of_lt hacc
  | cons id rest ih =>
    intro acc hacc
    by_cases hskip : skip.contains id
    · rw [searchPhase, if_pos hskip]; exact ih acc hacc
    · rw [searchPhase, if_neg hskip]
      by_cases hlen : maxC ≤ (acc ++ [(⟨id, 180⟩ : Cand)]).length
      · rw [if_pos hlen]
        simpa using hacc
      · rw [if_neg hlen]
        exact ih _ (Nat.lt_of_not_le hlen)

/-- C6 counterexample: an identifier returned by both the primary chart
listing and the fallback search is collected twice — the merged list is not
duplicate-free. -/
theorem selector_duplicate_ids :
    (getTrendingCands [] (some [⟨"a", 180⟩]) (some ["a"]) 2).map Cand.video_id
      = ["a", "a"] ∧
    ¬ ((getTrendingCands [] (some [⟨"a", 180⟩]) (some ["a"]) 2).map
        Cand.video_id).Nodup := by
  refine ⟨by decide, by decide⟩

/-- C6 (amended): every candidate returned by the selector satisfies the
exclusion rule — its identifier is neither in the DedupSet nor in the static
blocklist, and its recorded duration lies within the configured window
`[60, 480]` (fallback items are recorded with the hard-coded duration 180) —
and for `maxCount ≥ 1` (the callers use 15 and 20) the merged list has at
most `maxCount` elements.  The merge, however, performs no deduplication
between the primary and fallback phases (see `selector_duplicate_ids`). -/
theorem selector_exclusion_and_bound (uploaded : List String)
    (chart : Option (List ChartItem)) (search : Option (List String))
    (maxC : Nat) (h : 1 ≤ maxC) :
    (∀ c ∈ getTrendingCands uploaded chart search maxC,
        c.video_id ∉ uploaded ∧ c.video_id ∉ BLOCKLIST ∧
        60 ≤ c.duration ∧ c.duration ≤ 480) ∧
    (getTrendingCands uploaded chart search maxC).length ≤ maxC := by
  have hnil : ∀ c ∈ ([] : List Cand),
      (uploaded ++ BLOCKLIST).contains c.video_id = false ∧
        60 ≤ c.duration ∧ c.duration ≤ 480 := by simp
  have hsplit : ∀ c : Cand,
      (uploaded ++ BLOCKLIST).contains c.video_id = false →
      c.video_id ∉ uploaded ∧ c.video_id ∉ BLOCKLIST := by
    intro c hc
    constructor <;> · intro hmem; simp [hmem] at hc
  unfold getTrendingCands
  rcases chart with _ | items <;> rcases search with _ | ids <;>
    simp only []
  · constructor
    · intro c hc
      rw [if_pos (by simpa using h)] at hc
      simp at hc
    · rw [if_pos (by simpa using h)]
      simp
  · constructor
    · intro c hc
      rw [if_pos (by simpa using h)] at hc
      have := searchPhase_mem (uploaded ++ BLOCKLIST) maxC ids [] hnil c hc
      exact ⟨(hsplit c this.1).1, (hsplit c this.1).2, this.2.1, this.2.2⟩
    · rw [if_pos (by simpa using h)]
      exact searchPhase_len _ _ ids [] (by simpa using h)
  · have hchart := chartPhase_mem (uploaded ++ BLOCKLIST) maxC items [] hnil
    constructor
    · intro c hc
      split at hc
      · have := hchart c hc
        exact ⟨(hsplit c this.1).1, (hsplit c this.1).2, this.2.1, this.2.2⟩
      · have := hchart c hc
        exact ⟨(hsplit c this.1).1, (hsplit c this.1).2, this.2.1, this.2.2⟩
    · split
      · next hlt => exact Nat.le_of_lt hlt
      · next hge => exact chartPhase_len _ _ items [] (by simpa using h)
  · have hchart := chartPhase_mem (uploaded ++ BLOCKLIST) maxC items [] hnil
    constructor
    · intro c hc
      split at hc
      · have := searchPhase_mem (uploaded ++ BLOCKLIST) maxC ids _ hchart c hc
        exact ⟨(hsplit c this.1).1, (hsplit c this.1).2, this.2.1, this.2.2⟩
      · have := hchart c hc
        exact ⟨(hsplit c this.1).1, (hsplit c this.1).2, this.2.1, this.2.2⟩
    · split
      · next hlt => exact searchPhase_len _ _ ids _ hlt
      · next hge => exact chartPhase_len _ _ items [] (by simpa using h)

theorem selector_exclusion_and_bound_w :
    (∀ c ∈ getTrendingCands ["u"] (some [⟨"u", 120⟩, ⟨"b", 200⟩])
        (some ["c"]) 15,
        c.video_id ∉ ["u"] ∧ c.video_id ∉ BLOCKLIST ∧
        60 ≤ c.duration ∧ c.duration ≤ 480) ∧
    (getTrendingCands ["u"] (some [⟨"u", 120⟩, ⟨"b", 200⟩])
        (some ["c"]) 15).length ≤ 15 :=
  selector_exclusion_and_bound ["u"] (some [⟨"u", 120⟩, ⟨"b", 200⟩])
    (some ["c"]) 15 (by decide)

end ZeroTouch

namespace ZeroTouch

/-! ## Attempt-loop lemmas (C7) -/

/-- If the first `k` attempts raise and attempt `k` (within the bound) comes
back blocked, `try_upload_with_retry`'s loop ends in the blocked branch. -/
lemma tryUploadGo_blocked (att : Nat → AttemptEv) (vid : String) (r : Bool) :
    ∀ (k attempt remaining : Nat), k < remaining →
      (∀ j, j < k → ∃ q, att (attempt + j) = .raiseErr q) →
      att (attempt + k) = .published vid true r →
      tryUploadGo att attempt remaining = .blockedRes vid := by
  intro k
  induction k with
  | zero =>
    intro attempt remaining hlt hpre hblk
    obtain ⟨rem, rfl⟩ : ∃ rem, remaining = rem + 1 := ⟨remaining - 1, by omega⟩
    have hblk' : att attempt = .published vid true r := by simpa using hblk
    simp [tryUploadGo, hblk']
  | succ k ih =>
    intro attempt remaining hlt hpre hblk
    obtain ⟨rem, rfl⟩ : ∃ rem, remaining = rem + 1 := ⟨remaining - 1, by omega⟩
    obtain ⟨q, hq⟩ := hpre 0 (by omega)
    have hq' : att attempt = .raiseErr q := by simpa using hq
    have hrem : rem ≠ 0 := by omega
    simp only [tryUploadGo, hq', if_neg hrem]
    refine ih (attempt + 1) rem (by omega) ?_ ?_
    · intro j hj
      obtain ⟨q', hq''⟩ := hpre (j + 1) (by omega)
      exact ⟨q', by rw [show attempt + 1 + j = attempt + (j + 1) by omega]; exact hq''⟩
    · rw [show attempt + 1 + k = attempt + (k + 1) by omega]
      exact hblk

/-- A `succ` result of the attempt loop always stems from an attempt whose
publish went through and whose policy classification was not blocked. -/
lemma tryUploadGo_succ (att : Nat → AttemptEv) :
    ∀ (remaining attempt : Nat) (vid : String) (r : Bool),
      tryUploadGo att attempt remaining = .succ vid r →
      ∃ k, k < attempt + remaining ∧ att k = .published vid false r := by
  intro remaining
  induction remaining with
  | zero => intro attempt vid r h; simp [tryUploadGo] at h
  | succ rem ih =>
    intro attempt vid r h
    rcases hatt : att attempt with q | ⟨v, b, restr⟩
    · simp only [tryUploadGo, hatt] at h
      by_cases hrem : rem = 0
      · rw [if_pos hrem] at h; exact absurd h (by simp)
      · rw [if_neg hrem] at h
        obtain ⟨k, hk, hpub⟩ := ih (attempt + 1) vid r h
        exact ⟨k, by omega, hpub⟩
    · simp only [tryUploadGo, hatt] at h
      by_cases hb : b
      · rw [if_pos hb] at h; exact absurd h (by simp)
      · rw [if_neg hb] at h
        obtain ⟨rfl, rfl⟩ : v = vid ∧ restr = r := by
          constructor <;> · cases h; rfl
        exact ⟨attempt, by omega, by simpa [show b = false by simpa using hb] using hatt⟩

/-- Lemma: `try_upload_with_retry` succeeds only on a non-blocked publish event
within the three attempts. -/
lemma try_upload_succ (att : Nat → AttemptEv) (vid : String) (r : Bool)
    (h : try_upload_with_retry att = .succ vid r) :
    ∃ k, k < 3 ∧ att k = .published vid false r := by
  obtain ⟨k, hk, hpub⟩ := tryUploadGo_succ att 3 0 vid r h
  exact ⟨k, by omega, hpub⟩

/-- C7: whenever the post-publish policy check reports the item as blocked
(possibly after earlier failed attempts of the same candidate), the attempt
loop issues the compensating delete of the just-published video and returns
a non-success, and the orchestrator's candidate loop records the delete and
proceeds to the next candidate with the DedupSet and the history untouched
(only the delete trace grows). -/
theorem policy_blocked_compensating_delete (att : Nat → AttemptEv)
    (k : Nat) (vid : String) (r : Bool) (hk : k < 3)
    (hpre : ∀ j, j < k → ∃ q, att j = .raiseErr q)
    (hblk : att k = .published vid true r) :
    try_upload_with_retry att = .blockedRes vid ∧
    ∀ (cs : Nat → CandScript) (cand : Cand) (rest : List Cand) (i : Nat)
      (st : StoreState) (a : Nat),
      transformOk (cs i) = true → (cs i).attempts = att →
      regularGo cs (cand :: rest) i st a
        = regularGo cs rest (i + 1)
            { st with deleted := st.deleted ++ [vid] } (a + 1) := by
  have hblocked : try_upload_with_retry att = .blockedRes vid := by
    refine tryUploadGo_blocked att vid r k 0 3 hk ?_ (by simpa using hblk)
    intro j hj
    simpa using hpre j hj
  refine ⟨hblocked, ?_⟩
  intro cs cand rest i st a htr hatt
  rw [regularGo]
  simp only [htr, if_true, hatt, hblocked]

theorem policy_blocked_compensating_delete_w :
    try_upload_with_retry blockedScript.attempts = .blockedRes "vb" ∧
    regularGo (fun _ => blockedScript) [⟨"s1", 180⟩, ⟨"s2", 200⟩] 0 emptyStore 0
      = regularGo (fun _ => blockedScript) [⟨"s2", 200⟩] (0 + 1)
          { emptyStore with deleted := emptyStore.deleted ++ ["vb"] } (0 + 1) := by
  have h := policy_blocked_compensating_delete blockedScript.attempts 0 "vb" false
    (by decide) (by omega) rfl
  exact ⟨h.1, h.2 (fun _ => blockedScript) ⟨"s1", 180⟩ [⟨"s2", 200⟩] 0 emptyStore 0
    (by decide) rfl⟩

end ZeroTouch

namespace ZeroTouch

/-! ## Step equations for the candidate loops -/

lemma regularGo_step_noTransform (cs : Nat → CandScript) (cand : Cand)
    (rest : List Cand) (i : Nat) (st : StoreState) (a : Nat)
    (h : transformOk (cs i) = false) :
    regularGo cs (cand :: rest) i st a = regularGo cs rest (i + 1) st (a + 1) := by
  rw [regularGo]
  simp [h]

lemma regularGo_step_succ (cs : Nat → CandScript) (cand : Cand)
    (rest : List Cand) (i : Nat) (st : StoreState) (a : Nat)
    (vid : String) (restr : Bool) (h : transformOk (cs i) = true)
    (h2 : try_upload_with_retry (cs i).attempts = .succ vid restr) :
    regularGo cs (cand :: rest) i st a = regularGo cs rest (i + 1) st (a + 1) := by
  rw [regularGo]
  simp only [h, if_true, h2]

lemma regularGo_step_blocked (cs : Nat → CandScript) (cand : Cand)
    (rest : List Cand) (i : Nat) (st : StoreState) (a : Nat) (vid : String)
    (h : transformOk (cs i) = true)
    (h2 : try_upload_with_retry (cs i).attempts = .blockedRes vid) :
    regularGo cs (cand :: rest) i st a
      = regularGo cs rest (i + 1)
          { st with deleted := st.deleted ++ [vid] } (a + 1) := by
  rw [regularGo]
  simp only [h, if_true, h2]

lemma regularGo_step_exhausted (cs : Nat → CandScript) (cand : Cand)
    (rest : List Cand) (i : Nat) (st : StoreState) (a : Nat) (q : Bool)
    (h : transformOk (cs i) = true)
    (h2 : try_upload_with_retry (cs i).attempts = .exhausted q) :
    regularGo cs (cand :: rest) i st a = regularGo cs rest (i + 1) st (a + 1) := by
  rw [regularGo]
  simp only [h, if_true, h2]

lemma mashupGo_step_noTransform (ps : Nat → PairScript) (s1 s2 : Cand)
    (rest : List (Cand × Cand)) (i : Nat) (st : StoreState) (a : Nat)
    (h : ((ps i).t1Ok && (ps i).t2Ok) = false) :
    mashupGo ps ((s1, s2) :: rest) i st a = mashupGo ps rest (i + 1) st (a + 1) := by
  rw [mashupGo]
  simp [h]

lemma mashupGo_step_succ (ps : Nat → PairScript) (s1 s2 : Cand)
    (rest : List (Cand × Cand)) (i : Nat) (st : StoreState) (a : Nat)
    (vid : String) (restr : Bool) (h : ((ps i).t1Ok && (ps i).t2Ok) = true)
    (h2 : try_upload_with_retry (ps i).attempts = .succ vid restr) :
    mashupGo ps ((s1, s2) :: rest) i st a = mashupGo ps rest (i + 1) st (a + 1) := by
  rw [mashupGo]
  simp only [h, if_true, h2]

lemma mashupGo_step_blocked (ps : Nat → PairScript) (s1 s2 : Cand)
    (rest : List (Cand × Cand)) (i : Nat) (st : StoreState) (a : Nat)
    (vid : String) (h : ((ps i).t1Ok && (ps i).t2Ok) = true)
    (h2 : try_upload_with_retry (ps i).attempts = .blockedRes vid) :
    mashupGo ps ((s1, s2) :: rest) i st a
      = mashupGo ps rest (i + 1)
          { st with deleted := st.deleted ++ [vid] } (a + 1) := by
  rw [mashupGo]
  simp only [h, if_true, h2]

lemma mashupGo_step_exhausted (ps : Nat → PairScript) (s1 s2 : Cand)
    (rest : List (Cand × Cand)) (i : Nat) (st : StoreState) (a : Nat) (q : Bool)
    (h : ((ps i).t1Ok && (ps i).t2Ok) = true)
    (h2 : try_upload_with_retry (ps i).attempts = .exhausted q) :
    mashupGo ps ((s1, s2) :: rest) i st a = mashupGo ps rest (i + 1) st (a + 1) := by
  rw [mashupGo]
  simp only [h, if_true, h2]

/-! ## `mark_uploaded` store lemmas -/

lemma mark_uploaded_history (v : String) (st : StoreState) :
    (mark_uploaded v st).history = st.history ++ [v] := rfl

lemma mark_uploaded_mem (v : String) (st : StoreState) (x : String) :
    x ∈ (mark_uploaded v st).uploaded ↔ x ∈ st.uploaded ∨ x = v := by
  unfold mark_uploaded
  by_cases h : st.uploaded.contains v
  · have hv : v ∈ st.uploaded := by simpa using h
    simp only [if_pos h]
    constructor
    · exact fun hx => Or.inl hx
    · rintro (hx | rfl)
      · exact hx
      · exact hv
  · simp only [if_neg h, List.mem_cons]
    tauto

lemma mark_uploaded_counterFile (v : String) (st : StoreState) :
    (mark_uploaded v st).counterFile = st.counterFile := rfl

lemma mark_uploaded_langFile (v : String) (st : StoreState) :
    (mark_uploaded v st).langFile = st.langFile := rfl

end ZeroTouch

namespace ZeroTouch

/-! ## No-commit characterisation of the candidate loops (C3, C4)

Every branch of the candidate/pair loops continues without touching the
dedup set or the history: the transform-failure and exception branches by
`continue`, the blocked branch after recording only the compensating
delete, and the success branch because the `mark_uploaded` call raises
`TypeError` at argument binding and is caught by the same `except`. -/

lemma regularGo_no_commit (cs : Nat → CandScript) :
    ∀ (l : List Cand) (i : Nat) (st : StoreState) (a : Nat),
      (regularGo cs l i st a).st.uploaded = st.uploaded ∧
      (regularGo cs l i st a).st.history = st.history ∧
      (regularGo cs l i st a).st.counterFile = st.counterFile ∧
      (regularGo cs l i st a).st.langFile = st.langFile ∧
      (regularGo cs l i st a).res = .allFailed := by
  intro l
  induction l with
  | nil => intro i st a; exact ⟨rfl, rfl, rfl, rfl, rfl⟩
  | cons cand rest ih =>
    intro i st a
    by_cases htr : transformOk (cs i)
    · rcases hres : try_upload_with_retry (cs i).attempts with ⟨vid, restr⟩ | vid | q
      · rw [regularGo_step_succ cs cand rest i st a vid restr htr hres]
        exact ih (i + 1) st (a + 1)
      · rw [regularGo_step_blocked cs cand rest i st a vid htr hres]
        exact ih (i + 1) { st with deleted := st.deleted ++ [vid] } (a + 1)
      · rw [regularGo_step_exhausted cs cand rest i st a q htr hres]
        exact ih (i + 1) st (a + 1)
    · rw [regularGo_step_noTransform cs cand rest i st a (Bool.eq_false_iff.mpr htr)]
      exact ih (i + 1) st (a + 1)

lemma mashupGo_no_commit (ps : Nat → PairScript) :
    ∀ (l : List (Cand × Cand)) (i : Nat) (st : StoreState) (a : Nat),
      (mashupGo ps l i st a).st.uploaded = st.uploaded ∧
      (mashupGo ps l i st a).st.history = st.history ∧
      (mashupGo ps l i st a).st.counterFile = st.counterFile ∧
      (mashupGo ps l i st a).st.langFile = st.langFile ∧
      (mashupGo ps l i st a).res = .allFailed := by
  intro l
  induction l with
  | nil => intro i st a; exact ⟨rfl, rfl, rfl, rfl, rfl⟩
  | cons pair rest ih =>
    obtain ⟨s1, s2⟩ := pair
    intro i st a
    by_cases htr : ((ps i).t1Ok && (ps i).t2Ok)
    · rcases hres : try_upload_with_retry (ps i).attempts with ⟨vid, restr⟩ | vid | q
      · rw [mashupGo_step_succ ps s1 s2 rest i st a vid restr htr hres]
        exact ih (i + 1) st (a + 1)
      · rw [mashupGo_step_blocked ps s1 s2 rest i st a vid htr hres]
        exact ih (i + 1) { st with deleted := st.deleted ++ [vid] } (a + 1)
      · rw [mashupGo_step_exhausted ps s1 s2 rest i st a q htr hres]
        exact ih (i + 1) st (a + 1)
    · rw [mashupGo_step_noTransform ps s1 s2 rest i st a (Bool.eq_false_iff.mpr htr)]
      exact ih (i + 1) st (a + 1)

end ZeroTouch

namespace ZeroTouch

/-! ## Run-level reduction lemmas

`create_regular_upload` and `create_mashup_upload` both raise on every
input, so every invocation of `run_pipeline` lands in the
`except Exception: sys.exit(1)` arm with only the two cursor advances
persisted. -/

lemma run_pipeline_eq (st : StoreState) (scr : CycleScript) :
    ∃ e : String,
      run_pipeline st scr =
        { res := .fatal e,
          st := { st with
            counterFile := (get_next_upload_type st.counterFile).2,
            langFile := (get_next_language st.langFile).2 },
          attempted := 0, exitCode := 1 } := by
  by_cases hm : (get_next_upload_type st.counterFile).1 = "mashup"
  · by_cases hl : (getTrendingCands st.uploaded scr.chart scr.search 20).length = 2
    · exact ⟨"KeyError: 0", by simp [run_pipeline, hm, create_mashup_upload, hl]⟩
    · exact ⟨"ValueError: unpack",
        by simp [run_pipeline, hm, create_mashup_upload, hl]⟩
  · by_cases hl : (getTrendingCands st.uploaded scr.chart scr.search 15).length = 2
    · exact ⟨"TypeError: string indices must be integers",
        by simp [run_pipeline, hm, create_regular_upload, hl]⟩
    · exact ⟨"ValueError: unpack",
        by simp [run_pipeline, hm, create_regular_upload, hl]⟩

lemma run_pipeline_st (st : StoreState) (scr : CycleScript) :
    (run_pipeline st scr).st =
      { st with counterFile := (get_next_upload_type st.counterFile).2,
                langFile := (get_next_language st.langFile).2 } := by
  obtain ⟨e, he⟩ := run_pipeline_eq st scr
  rw [he]

lemma run_pipeline_fatal (st : StoreState) (scr : CycleScript) :
    ∃ e, (run_pipeline st scr).res = .fatal e := by
  obtain ⟨e, he⟩ := run_pipeline_eq st scr
  exact ⟨e, by rw [he]⟩

lemma run_pipeline_exit (st : StoreState) (scr : CycleScript) :
    (run_pipeline st scr).exitCode = 1 := by
  obtain ⟨e, he⟩ := run_pipeline_eq st scr
  rw [he]

end ZeroTouch

namespace ZeroTouch

/-- C3 (code bug): the DedupSet invariant's commit mechanism cannot execute.
Both `mark_uploaded` call sites raise `TypeError` (an unexpected `language`
keyword at main.py:164; five positional arguments against four parameters at
main.py:242-243) and the candidate loops are never even entered (the
bare-list unpack raises `ValueError` at main.py:137/193), so no cycle ever
adds an identifier to `uploaded.json` or appends to the history — the run
ends in the fatal arm — and even the loop code as written (conjuncts 4-5)
commits nothing on any branch. -/
theorem dedup_set_never_updated (st : StoreState) (scr : CycleScript) :
    (run_pipeline st scr).st.uploaded = st.uploaded ∧
    (run_pipeline st scr).st.history = st.history ∧
    (∃ e, (run_pipeline st scr).res = .fatal e) ∧
    (∀ (cs : Nat → CandScript) (l : List Cand) (i : Nat) (st' : StoreState)
      (a : Nat),
        (regularGo cs l i st' a).st.uploaded = st'.uploaded ∧
        (regularGo cs l i st' a).st.history = st'.history) ∧
    (∀ (ps : Nat → PairScript) (l : List (Cand × Cand)) (i : Nat)
      (st' : StoreState) (a : Nat),
        (mashupGo ps l i st' a).st.uploaded = st'.uploaded ∧
        (mashupGo ps l i st' a).st.history = st'.history) := by
  refine ⟨?_, ?_, run_pipeline_fatal st scr, ?_, ?_⟩
  · rw [run_pipeline_st]
  · rw [run_pipeline_st]
  · intro cs l i st' a
    exact ⟨(regularGo_no_commit cs l i st' a).1,
      (regularGo_no_commit cs l i st' a).2.1⟩
  · intro ps l i st' a
    exact ⟨(mashupGo_no_commit ps l i st' a).1,
      (mashupGo_no_commit ps l i st' a).2.1⟩

/-- C4 (code bug): no cycle can reach the success terminal, so no
PublishRecord is ever appended: every invocation ends in the fatal
`except Exception: sys.exit(1)` arm — concretely, the mashup-slot cycle with
a cleanly-publishing pair dies of `KeyError: 0` and the regular cycle with a
cleanly-publishing candidate dies of the string-index `TypeError`, both
raised by the broken `candidates, language = get_trending_songs(...)`
entry before any candidate is evaluated. -/
theorem every_cycle_fatal_no_publish_record (st : StoreState)
    (scr : CycleScript) :
    (∃ e, (run_pipeline st scr).res = .fatal e) ∧
    (∀ v, (run_pipeline st scr).res ≠ .success v) ∧
    (run_pipeline st scr).st.history.length = st.history.length ∧
    (run_pipeline mashupStore scrMashupOk).res = .fatal "KeyError: 0" ∧
    (run_pipeline emptyStore scrRegularOk).res
      = .fatal "TypeError: string indices must be integers" := by
  obtain ⟨e, he⟩ := run_pipeline_eq st scr
  refine ⟨⟨e, by rw [he]⟩, ?_, by rw [he], rfl, rfl⟩
  intro v hv
  rw [he] at hv
  exact absurd hv (by simp)

/-- C8 (code bug): the process never exits 0.  Every invocation — the
empty-candidate no-op included — raises out of `create_*_upload` (for an
empty list, `ValueError` at the bare-list unpack, *before* the
`if not candidates` check) and takes the `except Exception: sys.exit(1)`
arm. -/
theorem exit_code_always_one (st : StoreState) (scr : CycleScript) :
    (run_pipeline st scr).exitCode = 1 ∧
    (run_pipeline emptyStore scrNoCands).res = .fatal "ValueError: unpack" ∧
    (run_pipeline emptyStore scrNoCands).exitCode = 1 :=
  ⟨run_pipeline_exit st scr, rfl, rfl⟩

/-- C1 (code bug): a `QuotaExceededError` is *not* a run-level stop.  At the
loop level (the code as written): `try_upload_with_retry` catches it with
`except Exception`, retries the candidate and re-raises after the third
attempt (conjunct 1), and the candidate loop's
`except (DownloadError, Exception)` swallows it and moves on — with quota
raised on candidate 1, candidate 2 is still attempted and the loop just
returns all-failed (conjunct 2).  At the run level, no invocation even
reaches a publish attempt: the quota scenario ends in the fatal
`TypeError`/`ValueError` arm with exit code 1, not 0 (conjuncts 3-4) — the
`except QuotaExceededError: sys.exit(0)` handler is dead code.  Only the
claim's last part holds: the rotation-cursor advance persisted in step 1
survives (conjunct 5). -/
theorem quota_swallowed_by_candidate_loop :
    try_upload_with_retry quotaScript.attempts = .exhausted true ∧
    regularGo (fun _ => quotaScript) [⟨"s1", 180⟩, ⟨"s2", 200⟩] 0 emptyStore 0
      = ⟨.allFailed, emptyStore, 2⟩ ∧
    (run_pipeline emptyStore scrQuotaAll).res
      = .fatal "TypeError: string indices must be integers" ∧
    (run_pipeline emptyStore scrQuotaAll).exitCode = 1 ∧
    (run_pipeline emptyStore scrQuotaAll).st.counterFile = some "1" :=
  ⟨rfl, rfl, rfl, rfl, rfl⟩

end ZeroTouch

namespace ZeroTouch

/-! ## Rotation-cursor lemmas (C2) -/

/-- Every invocation — whatever its outcome — persists the upload-type
counter advanced by exactly one step (the counter write happens before the
`try` block, so the invariable crash inside it cannot undo it). -/
lemma run_pipeline_counterFile (st : StoreState) (scr : CycleScript) :
    (run_pipeline st scr).st.counterFile
      = some (Nat.repr ((uploadTypeCount st.counterFile + 1) % 5)) := by
  rw [run_pipeline_st]
  rfl

/-- Every invocation — whatever its outcome — persists the language cursor
advanced by exactly one rotation step (`get_trending_songs` runs to
completion, advancing and writing the cursor, before the caller's unpack
fails). -/
lemma run_pipeline_langFile (st : StoreState) (scr : CycleScript) :
    (run_pipeline st scr).st.langFile
      = some (nextLanguage (readLastLang st.langFile)) := by
  rw [run_pipeline_st]
  rfl

/-- Starting from an in-range persisted counter (which every program-written
state is, `uploadTypeCount_repr`), the counter read at cycle `i` is
`(c0 + i) % 5`. -/
lemma counter_trace (st0 : StoreState) (scr : Nat → CycleScript)
    (h : uploadTypeCount st0.counterFile < 5) :
    ∀ i, uploadTypeCount (pipelineIter st0 scr i).counterFile
      = (uploadTypeCount st0.counterFile + i) % 5 := by
  intro i
  induction i with
  | zero => simpa [pipelineIter] using (Nat.mod_eq_of_lt h).symm
  | succ i ih =>
    rw [pipelineIter, run_pipeline_counterFile,
      uploadTypeCount_repr (Nat.mod_lt _ (by norm_num)), ih]
    omega

lemma run_pipeline_langUsed (st : StoreState) (scr1 : CycleScript) :
    langUsed (run_pipeline st scr1).st = nextLanguage (langUsed st) := by
  unfold langUsed
  rw [run_pipeline_langFile]
  rfl

/-- Lemma: `_get_next_language` always lands inside the rotation list. -/
lemma nextLanguage_mem_rotation (s : String) :
    ∃ j : Fin 4, nextLanguage s = languageAt j := by
  unfold nextLanguage
  cases hidx : LANGUAGE_ROTATION.findIdx? (· == s) with
  | none => exact ⟨⟨0, by norm_num⟩, rfl⟩
  | some idx =>
    exact ⟨⟨(idx + 1) % LANGUAGE_ROTATION.length,
      Nat.mod_lt _ (by decide)⟩, rfl⟩

lemma languageAt_step :
    ∀ j : Fin 4, nextLanguage (languageAt j)
      = languageAt ⟨(j.val + 1) % 4, Nat.mod_lt _ (by norm_num)⟩ := by
  decide

lemma languageAt_beq :
    ∀ a b : Fin 4, (languageAt a == languageAt b) = (a.val == b.val) := by
  decide

/-- The sequence of languages used across consecutive invocations is the
fixed round-robin of `LANGUAGE_ROTATION`, whatever the initial persisted
state was. -/
lemma lang_trace (st0 : StoreState) (scr : Nat → CycleScript) :
    ∃ j0 : Fin 4, ∀ i, langUsed (pipelineIter st0 scr i)
      = languageAt ⟨(j0.val + i) % 4, Nat.mod_lt _ (by norm_num)⟩ := by
  obtain ⟨j0, hj0⟩ := nextLanguage_mem_rotation (readLastLang st0.langFile)
  refine ⟨j0, ?_⟩
  intro i
  induction i with
  | zero =>
    have h4 := j0.isLt
    have hfin : (⟨(j0.val + 0) % 4, Nat.mod_lt _ (by norm_num)⟩ : Fin 4) = j0 :=
      Fin.ext (show (j0.val + 0) % 4 = j0.val by omega)
    rw [hfin]
    exact hj0
  | succ i ih =>
    rw [pipelineIter, run_pipeline_langUsed, ih, languageAt_step]
    congr 1
    apply Fin.ext
    show ((j0.val + i) % 4 + 1) % 4 = (j0.val + (i + 1)) % 4
    omega

/-- Exact count of indices `i < N` with `(c0 + i) % 5 = v`. -/
lemma countP_mod5 (c0 v : Nat) (hv : v < 5) :
    ∀ N, ((List.range N).countP fun i => (c0 + i) % 5 == v)
      = N / 5 + (if (v + 5 - c0 % 5) % 5 < N % 5 then 1 else 0) := by
  intro N
  induction N with
  | zero => simp
  | succ N ih =>
    rw [List.range_succ, List.countP_append, ih]
    have hsingle : (List.countP (fun i => (c0 + i) % 5 == v) [N])
        = if (c0 + N) % 5 = v then 1 else 0 := by
      simp [List.countP_cons, beq_iff_eq]
    rw [hsingle]
    split_ifs <;> omega

/-- Exact count of indices `i < N` with `(c0 + i) % 4 = v`. -/
lemma countP_mod4 (c0 v : Nat) (hv : v < 4) :
    ∀ N, ((List.range N).countP fun i => (c0 + i) % 4 == v)
      = N / 4 + (if (v + 4 - c0 % 4) % 4 < N % 4 then 1 else 0) := by
  intro N
  induction N with
  | zero => simp
  | succ N ih =>
    rw [List.range_succ, List.countP_append, ih]
    have hsingle : (List.countP (fun i => (c0 + i) % 4 == v) [N])
        = if (c0 + N) % 4 = v then 1 else 0 := by
      simp [List.countP_cons, beq_iff_eq]
    rw [hsingle]
    split_ifs <;> omega

/-- Fairness of the upload-type slots over any `N` consecutive cycles. -/
lemma slotVisits_formula (st0 : StoreState) (scr : Nat → CycleScript)
    (N v : Nat) (hv : v < 5) (h : uploadTypeCount st0.counterFile < 5) :
    slotVisits st0 scr N v = N / 5 ∨ slotVisits st0 scr N v = (N + 4) / 5 := by
  have htrace := counter_trace st0 scr h
  have hcong : slotVisits st0 scr N v
      = ((List.range N).countP
          fun i => (uploadTypeCount st0.counterFile + i) % 5 == v) := by
    unfold slotVisits
    exact List.countP_congr fun i hi => by rw [htrace i]
  rw [hcong, countP_mod5 _ _ hv]
  split_ifs with hif
  · right; omega
  · left; omega

/-- Fairness of the language buckets over any `N` consecutive cycles. -/
lemma langVisits_formula (st0 : StoreState) (scr : Nat → CycleScript)
    (N : Nat) (j : Fin 4) :
    langVisits st0 scr N j = N / 4 ∨ langVisits st0 scr N j = (N + 3) / 4 := by
  obtain ⟨j0, hj0⟩ := lang_trace st0 scr
  have hcong : langVisits st0 scr N j
      = ((List.range N).countP fun i => (j0.val + i) % 4 == j.val) := by
    unfold langVisits
    refine List.countP_congr fun i hi => ?_
    rw [hj0 i, languageAt_beq]
  have h4 := j.isLt
  rw [hcong, countP_mod4 _ _ j.isLt]
  split_ifs with hif
  · right; omega
  · left; omega

/-- C2: each rotation cursor advances by exactly one step per invocation,
regardless of the cycle's outcome (first two conjuncts, over arbitrary state
and scripts), and consequently, across `N` consecutive invocations from any
program-written initial state (counter in range — every value the program
itself persists), each of the 5 upload-type slots is read exactly `⌊N/5⌋` or
`⌈N/5⌉` times and each of the 4 language buckets is used exactly `⌊N/4⌋` or
`⌈N/4⌉` times. -/
theorem rotation_round_robin_fairness (st0 st : StoreState)
    (scr : Nat → CycleScript) (scr1 : CycleScript) (N : Nat)
    (v : Fin 5) (j : Fin 4) (h : uploadTypeCount st0.counterFile < 5) :
    (run_pipeline st scr1).st.counterFile
      = some (Nat.repr ((uploadTypeCount st.counterFile + 1) % 5)) ∧
    (run_pipeline st scr1).st.langFile
      = some (nextLanguage (readLastLang st.langFile)) ∧
    (slotVisits st0 scr N v.val = N / 5 ∨
      slotVisits st0 scr N v.val = (N + 4) / 5) ∧
    (langVisits st0 scr N j = N / 4 ∨ langVisits st0 scr N j = (N + 3) / 4) :=
  ⟨run_pipeline_counterFile st scr1, run_pipeline_langFile st scr1,
   slotVisits_formula st0 scr N v.val v.isLt h, langVisits_formula st0 scr N j⟩

theorem rotation_round_robin_fairness_w :
    (run_pipeline emptyStore scrNoCands).st.counterFile
      = some (Nat.repr ((uploadTypeCount emptyStore.counterFile + 1) % 5)) ∧
    (run_pipeline emptyStore scrNoCands).st.langFile
      = some (nextLanguage (readLastLang emptyStore.langFile)) ∧
    (slotVisits emptyStore (fun _ => scrNoCands) 7 (2 : Fin 5).val = 7 / 5 ∨
      slotVisits emptyStore (fun _ => scrNoCands) 7 (2 : Fin 5).val = (7 + 4) / 5) ∧
    (langVisits emptyStore (fun _ => scrNoCands) 7 (1 : Fin 4) = 7 / 4 ∨
      langVisits emptyStore (fun _ => scrNoCands) 7 (1 : Fin 4) = (7 + 3) / 4) :=
  rotation_round_robin_fairness emptyStore emptyStore (fun _ => scrNoCands)
    scrNoCands 7 2 1 (by decide)

end ZeroTouch

